import Mathlib

/-!
Verification of the SafeEdge rollout orchestration core against its source.

The definitions below are shallow embeddings of the repository's code:
the sqlc queries in `internal/controlplane/database/queries/rollouts.sql`
and `organizations.sql`, the gRPC `DeviceService` (device stream registry,
heartbeat/health handlers, send operations), and the `crypto` package's
BLAKE3 hash helpers.  Timestamps (`NOW()`) are modelled as explicit `Nat`
parameters; SQL `NULL` columns as `Option`.  Parts of the rollout service
that exist in the repository only as unimplemented stubs are modelled from
the specification and marked `Modelled from the spec:` in their doc
comments.
-/

namespace SafeEdge

/-- The `state` column of `rollouts`:
`CHECK (state IN ('DRAFT','CANARY','FULL','COMPLETE','ROLLBACK','FAILED'))`. -/
inductive RolloutState
  | DRAFT
  | CANARY
  | FULL
  | COMPLETE
  | ROLLBACK
  | FAILED
deriving DecidableEq, Repr

/-- The columns of a `rollouts` row that the state-changing queries touch.
`started_at` and `completed_at` are nullable `TIMESTAMPTZ` columns. -/
structure Rollout where
  state : RolloutState
  started_at : Option Nat
  completed_at : Option Nat
deriving DecidableEq, Repr

/-- `CreateRollout` inserts with `state = 'DRAFT'` and both timestamp
columns NULL. -/
def freshRollout : Rollout :=
  { state := RolloutState.DRAFT, started_at := none, completed_at := none }

/-- `UpdateRolloutState`:
`UPDATE rollouts SET state = $2,
 started_at = CASE WHEN started_at IS NULL THEN NOW() ELSE started_at END
 WHERE id = $1`. -/
def UpdateRolloutState (now : Nat) (newState : RolloutState) (r : Rollout) : Rollout :=
  { r with
      state := newState
      started_at :=
        match r.started_at with
        | none => some now
        | some t => some t }

/-- `CompleteRollout`:
`UPDATE rollouts SET state = 'COMPLETE', completed_at = NOW() WHERE id = $1`. -/
def CompleteRollout (now : Nat) (r : Rollout) : Rollout :=
  { r with state := RolloutState.COMPLETE, completed_at := some now }

/-- `FailRollout`:
`UPDATE rollouts SET state = 'FAILED', completed_at = NOW() WHERE id = $1`. -/
def FailRollout (now : Nat) (r : Rollout) : Rollout :=
  { r with state := RolloutState.FAILED, completed_at := some now }

/-- One state-changing repository operation on a rollout row. -/
inductive RolloutOp
  | update (newState : RolloutState)
  | complete
  | fail
deriving DecidableEq, Repr

/-- Apply one repository operation at time `now`. -/
def applyRolloutOp (now : Nat) (op : RolloutOp) (r : Rollout) : Rollout :=
  match op with
  | RolloutOp.update s => UpdateRolloutState now s r
  | RolloutOp.complete => CompleteRollout now r
  | RolloutOp.fail => FailRollout now r

/-- Apply a sequence of timestamped repository operations, oldest first. -/
def applyRolloutOps (ops : List (Nat × RolloutOp)) (r : Rollout) : Rollout :=
  match ops with
  | [] => r
  | (now, op) :: rest => applyRolloutOps rest (applyRolloutOp now op r)

/-- The transition-table edges of spec §4.6 (abort goes DRAFT/CANARY/FULL
→ ROLLBACK and then ROLLBACK → FAILED). -/
def allowedEdge : RolloutState → RolloutState → Bool
  | RolloutState.DRAFT, RolloutState.CANARY => true
  | RolloutState.DRAFT, RolloutState.ROLLBACK => true
  | RolloutState.CANARY, RolloutState.FULL => true
  | RolloutState.CANARY, RolloutState.ROLLBACK => true
  | RolloutState.FULL, RolloutState.COMPLETE => true
  | RolloutState.FULL, RolloutState.ROLLBACK => true
  | RolloutState.ROLLBACK, RolloutState.FAILED => true
  | _, _ => false

/-- A step either leaves the state unchanged or follows a §4.6 edge. -/
def allowedTransition (a b : RolloutState) : Bool :=
  a == b || allowedEdge a b

/-- `COMPLETE` and `FAILED` are the terminal rollout states. -/
def isTerminal : RolloutState → Bool
  | RolloutState.COMPLETE => true
  | RolloutState.FAILED => true
  | _ => false

/-- The `status` column of `rollout_device_status`:
`CHECK (status IN ('PENDING','IN_PROGRESS','HEALTHY','UNHEALTHY','ROLLED_BACK'))`. -/
inductive DeviceStatus
  | PENDING
  | IN_PROGRESS
  | HEALTHY
  | UNHEALTHY
  | ROLLED_BACK
deriving DecidableEq, Repr

/-- A `rollout_device_status` row; the composite primary key is
`(rollout_id, device_id)`, `health_check_result` is a nullable JSONB
column (modelled as its text), `updated_at` defaults to `NOW()`. -/
structure RolloutDeviceStatusRow where
  rollout_id : String
  device_id : String
  is_canary : Bool
  status : DeviceStatus
  health_check_result : Option String
  updated_at : Nat
deriving DecidableEq, Repr

/-- The per-row effect of `UpdateRolloutDeviceStatus`:
`UPDATE rollout_device_status
 SET status = $3, health_check_result = $4, updated_at = NOW()
 WHERE rollout_id = $1 AND device_id = $2`.
A row is rewritten exactly when it matches the key; the query reads
nothing from the `rollouts` table. -/
def updateDeviceStatusRow (now : Nat) (rolloutId deviceId : String)
    (newStatus : DeviceStatus) (hcr : Option String)
    (row : RolloutDeviceStatusRow) : RolloutDeviceStatusRow :=
  if row.rollout_id = rolloutId ∧ row.device_id = deviceId then
    { row with status := newStatus, health_check_result := hcr, updated_at := now }
  else
    row

/-- The control-plane tables the rollout queries touch: `rollouts` keyed
by id, and the `rollout_device_status` rows. -/
structure ControlPlaneDB where
  rollouts : List (String × Rollout)
  statusRows : List RolloutDeviceStatusRow
deriving DecidableEq, Repr

/-- `UpdateRolloutDeviceStatus` over the whole database: it rewrites the
matching status rows and — exactly as the SQL — does not consult or
modify the `rollouts` table. -/
def UpdateRolloutDeviceStatus (now : Nat) (rolloutId deviceId : String)
    (newStatus : DeviceStatus) (hcr : Option String)
    (db : ControlPlaneDB) : ControlPlaneDB :=
  { db with
      statusRows :=
        db.statusRows.map (updateDeviceStatusRow now rolloutId deviceId newStatus hcr) }

/-- A one-rollout database used as a concrete test vector: rollout `"r1"`
is already COMPLETE (hence terminal) and its device `"d1"` row is HEALTHY. -/
def terminalRolloutDB : ControlPlaneDB :=
  { rollouts := [("r1",
      { state := RolloutState.COMPLETE, started_at := some 0, completed_at := some 1 })]
    statusRows := [
      { rollout_id := "r1", device_id := "d1", is_canary := true,
        status := DeviceStatus.HEALTHY, health_check_result := none, updated_at := 0 }] }

/-- `HeartbeatRequest` fields the device service reads. -/
structure HeartbeatRequest where
  device_id : String
  timestamp : Nat
  agent_version : String
deriving DecidableEq, Repr

/-- Outbound `UpdateNotification` (the "apply update" command,
`ApplyUpdate{rolloutID, artifactID, contentHash, signature}`). -/
structure UpdateNotification where
  rollout_id : String
  artifact_id : String
  blake3_hash : String
  signature : List Nat
deriving DecidableEq, Repr

/-- Outbound `RollbackRequest` (`Rollback{rolloutID, reason}`). -/
structure RollbackRequest where
  rollout_id : String
  reason : String
deriving DecidableEq, Repr

/-- The `ControlMessage` oneof payload sent to a device. -/
inductive ControlPayload
  | heartbeatAck (timestamp : Nat)
  | update (u : UpdateNotification)
  | rollback (r : RollbackRequest)
deriving DecidableEq, Repr

/-- `HealthReport` message fields (inbound). -/
structure HealthReport where
  device_id : String
  rollout_id : String
  healthy : Bool
  detail : Option String
deriving DecidableEq, Repr

/-- gRPC status codes the device service uses. -/
inductive GrpcCode
  | NotFound
  | InvalidArgument
  | Internal
deriving DecidableEq, Repr

/-- The typed error of a send to a device with no registered stream
(`status.Errorf(codes.NotFound, "device %s not connected", deviceID)`). -/
inductive SendError
  | notConnected (deviceID : String)
deriving DecidableEq, Repr

/-- `DeviceService.streams : map[string]pb.DeviceService_DeviceStreamServer`,
with stream handles modelled as `Nat`. -/
def StreamMap : Type := String → Option Nat

/-- The freshly constructed service's empty stream map. -/
def emptyStreams : StreamMap := fun _ => none

/-- `addStream`: `s.streams[deviceID] = stream` — a second registration
for the same device id replaces the prior handle. -/
def addStream (m : StreamMap) (deviceID : String) (streamHandle : Nat) : StreamMap :=
  fun x => if x = deviceID then some streamHandle else m x

/-- `removeStream`: `delete(s.streams, deviceID)` — unconditional, with no
check that the entry still belongs to the caller's stream. -/
def removeStream (m : StreamMap) (deviceID : String) : StreamMap :=
  fun x => if x = deviceID then none else m x

/-- `SendUpdateNotification`: look the device up under the read lock; a
missing entry yields the not-connected error, otherwise the update command
is sent on that device's stream. -/
def SendUpdateNotification (m : StreamMap) (deviceID : String)
    (u : UpdateNotification) : Except SendError (Nat × ControlPayload) :=
  match m deviceID with
  | none => Except.error (SendError.notConnected deviceID)
  | some s => Except.ok (s, ControlPayload.update u)

/-- `SendRollbackRequest`: identical shape, sending the rollback command. -/
def SendRollbackRequest (m : StreamMap) (deviceID : String)
    (rb : RollbackRequest) : Except SendError (Nat × ControlPayload) :=
  match m deviceID with
  | none => Except.error (SendError.notConnected deviceID)
  | some s => Except.ok (s, ControlPayload.rollback rb)

/-- The three exit paths of the `DeviceStream` receive loop. -/
inductive StreamTermination
  | ctxDone
  | eofClean
  | recvError
deriving DecidableEq, Repr

/-- `DeviceStream`'s exit: on context cancellation, clean EOF, or a
receive error alike, the loop calls `removeStream(deviceID)` with the
device id it last recorded and returns. -/
def deviceStreamExit (cause : StreamTermination) (deviceID : String)
    (m : StreamMap) : StreamMap :=
  removeStream m deviceID

/-- The observable outcome of `handleHeartbeat`: the handler's returned
error, the uuid whose `last_seen_at` row was written (when the
`UpdateDeviceHeartbeat` write succeeded), and the control messages sent. -/
structure HeartbeatOutcome where
  err : Option GrpcCode
  wroteHeartbeat : Option String
  sent : List ControlPayload
deriving DecidableEq, Repr

/-- `handleHeartbeat`.  `parseUUID` stands for `uuid.Parse` (only its
success or failure matters here); `repoOk` says whether the
`UpdateDeviceHeartbeat` write (`SET last_seen_at = NOW()`) succeeds;
`sendErr` is the result of `stream.Send(ack)`.  An unparseable id returns
InvalidArgument; otherwise the repository write is attempted (a failure is
logged, not returned), a `HeartbeatAck` echoing `hb.Timestamp` is sent,
and the handler returns the send's result. -/
def handleHeartbeat (parseUUID : String → Option String) (repoOk : Bool)
    (sendErr : Option GrpcCode) (hb : HeartbeatRequest) : HeartbeatOutcome :=
  match parseUUID hb.device_id with
  | none =>
    { err := some GrpcCode.InvalidArgument, wroteHeartbeat := none, sent := [] }
  | some u =>
    { err := sendErr
      wroteHeartbeat := if repoOk then some u else none
      sent := [ControlPayload.heartbeatAck hb.timestamp] }

/-- Lowercase hex digit, as `encoding/hex` uses ("0123456789abcdef"). -/
def hexDigitChar (n : Nat) : Char :=
  if n < 10 then Char.ofNat (48 + n) else Char.ofNat (87 + n)

/-- Two hex characters per byte, high nibble first. -/
def hexEncodeChars : List Nat → List Char
  | [] => []
  | b :: rest => hexDigitChar (b % 256 / 16) :: hexDigitChar (b % 16) :: hexEncodeChars rest

/-- `hex.EncodeToString` over a byte sequence. -/
def hexEncode (bytes : List Nat) : String :=
  String.mk (hexEncodeChars bytes)

/-- `BLAKE3Hash(data)`: hex-encode `blake3.Sum256(data)`.  The compression
function itself is the parameter `sum256` (a 32-byte digest). -/
def BLAKE3Hash (sum256 : List Nat → List Nat) (data : List Nat) : String :=
  hexEncode (sum256 data)

/-- `VerifyBLAKE3(data, expectedHash)`: recompute the hash of `data` and
compare the strings. -/
def VerifyBLAKE3 (sum256 : List Nat → List Nat) (data : List Nat)
    (expectedHash : String) : Bool :=
  BLAKE3Hash sum256 data == expectedHash

/-- Replace character `i` of a string (mutating one byte of a stored
hash). -/
def mutateChar (s : String) (i : Nat) (c : Char) : String :=
  String.mk (s.toList.set i c)

/-- Modelled from the spec: the hash-format check of §4.4 — a stored
content hash must be a 256-bit value hex-encoded as `BLAKE3Hash` produces
it: 64 lowercase hex characters. -/
def validHashFormat (h : String) : Bool :=
  h.length == 64 && h.toList.all (fun c =>
    (decide (48 ≤ c.toNat) && decide (c.toNat ≤ 57)) ||
    (decide (97 ≤ c.toNat) && decide (c.toNat ≤ 102)))

/-- Modelled from the spec: §4.4 (b) — the detached signature's length and
encoding must match the expected signing scheme (Ed25519: 64 raw bytes). -/
def validSignatureEncoding (sig : List Nat) : Bool :=
  sig.length == 64 && sig.all (fun b => decide (b < 256))

/-- The artifact columns the trust verifier reads. -/
structure Artifact where
  blake3_hash : String
  signature : List Nat
  signing_key_id : String
deriving DecidableEq, Repr

/-- Modelled from the spec: §4.4 — the artifact trust check: hash format,
signature length/encoding, and membership of the signing key id in the
configured trusted-keys set. -/
def verifyArtifactTrust (trustedKeys : List String) (a : Artifact) : Bool :=
  validHashFormat a.blake3_hash &&
  validSignatureEncoding a.signature &&
  trustedKeys.contains a.signing_key_id

/-- The typed errors of start() (spec §7). -/
inductive StartRolloutError
  | UntrustedArtifact
  | ConflictingTransition
deriving DecidableEq, Repr

/-- Modelled from the spec: `StartRollout` exists in the repository only
as an unimplemented HTTP stub, so start() is modelled from §4.4/§4.6/§7:
on a DRAFT rollout it verifies the artifact's trust and either performs
the DRAFT→CANARY `UpdateRolloutState` or returns `UntrustedArtifact`
leaving the row untouched; on a non-DRAFT rollout it returns
`ConflictingTransition`.  The result is the (possibly unchanged) rollout
row paired with the error, if any. -/
def startRollout (now : Nat) (trustedKeys : List String) (a : Artifact)
    (r : Rollout) : Rollout × Option StartRolloutError :=
  if r.state = RolloutState.DRAFT then
    if verifyArtifactTrust trustedKeys a then
      (UpdateRolloutState now RolloutState.CANARY r, none)
    else
      (r, some StartRolloutError.UntrustedArtifact)
  else
    (r, some StartRolloutError.ConflictingTransition)

/-- An artifact failing the trust checks (malformed hash, empty
signature). -/
def badArtifact : Artifact :=
  { blake3_hash := "zz", signature := [], signing_key_id := "k1" }

/-- An artifact passing all trust checks for trusted key `"k1"`. -/
def goodArtifact : Artifact :=
  { blake3_hash := hexEncode (List.replicate 32 0)
    signature := List.replicate 64 0
    signing_key_id := "k1" }

/-- Modelled from the spec: `handleHealthReport` in the device service
only logs the report — its `rollout_device_status` update is a TODO left
to the missing rollout service — so the row transition is modelled from
§4.6: a health report moves an IN_PROGRESS row to HEALTHY or UNHEALTHY;
an UNHEALTHY report downgrades a HEALTHY row (a device may flap); a
duplicate HEALTHY report for an already-HEALTHY row is a no-op on the
row. -/
def applyHealthReport (now : Nat) (rep : HealthReport)
    (row : RolloutDeviceStatusRow) : RolloutDeviceStatusRow :=
  match row.status, rep.healthy with
  | DeviceStatus.IN_PROGRESS, true =>
    { row with status := DeviceStatus.HEALTHY,
               health_check_result := rep.detail, updated_at := now }
  | DeviceStatus.IN_PROGRESS, false =>
    { row with status := DeviceStatus.UNHEALTHY,
               health_check_result := rep.detail, updated_at := now }
  | DeviceStatus.HEALTHY, false =>
    { row with status := DeviceStatus.UNHEALTHY,
               health_check_result := rep.detail, updated_at := now }
  | _, _ => row

/-- A concrete update command used in witnesses. -/
def sampleUpdate : UpdateNotification :=
  { rollout_id := "r1", artifact_id := "a1"
    blake3_hash := hexEncode (List.replicate 32 0)
    signature := List.replicate 64 0 }

/-- A concrete rollback command used in witnesses. -/
def sampleRollback : RollbackRequest :=
  { rollout_id := "r1", reason := "canary unhealthy" }

/-- A helper fact about `List.set`: replacing position `i` by a genuinely
different element changes the list. -/
theorem set_ne_of_ne {α : Type} (l : List α) (i : Nat) (c : α)
    (hi : i < l.length) (hc : c ≠ l.get ⟨i, hi⟩) : l.set i c ≠ l := by
  induction l generalizing i with
  | nil => simp at hi
  | cons a t ih =>
    cases i with
    | zero =>
      intro heq
      injection heq with h1 h2
      exact hc h1
    | succ n =>
      intro heq
      injection heq with h1 h2
      exact ih n (Nat.lt_of_succ_lt_succ hi) hc h2

/-- Mutating one in-range character of a string to a different character
yields a different string. -/
theorem mutateChar_ne (s : String) (i : Nat) (c : Char)
    (hi : i < s.toList.length) (hc : c ≠ s.toList.get ⟨i, hi⟩) :
    mutateChar s i c ≠ s := by
  intro heq
  exact set_ne_of_ne s.toList i c hi hc (congrArg String.data heq)

end SafeEdge

namespace SafeEdge

/-- C1 counterexample: the claim that every sequence of repository
operations moves a rollout's state only along §4.6 edges is false:
`CompleteRollout` applied to a freshly created DRAFT rollout moves it
directly from DRAFT to COMPLETE, which is not an allowed transition. -/
theorem c1_draft_to_complete_counterexample :
    freshRollout.state = RolloutState.DRAFT ∧
    (CompleteRollout 5 freshRollout).state = RolloutState.COMPLETE ∧
    allowedTransition RolloutState.DRAFT RolloutState.COMPLETE = false := by
  decide

/-- C1 (amended): the repository operations do not enforce the §4.6
transition table.  For every prior rollout row, `UpdateRolloutState` sets
exactly the requested state, `CompleteRollout` sets COMPLETE and
`FailRollout` sets FAILED, unconditionally — in particular a rollout can
move directly from DRAFT to COMPLETE or FAILED. -/
theorem c1_repo_ops_set_state_unconditionally (now : Nat) (r : Rollout) :
    (∀ s : RolloutState, (UpdateRolloutState now s r).state = s) ∧
    (CompleteRollout now r).state = RolloutState.COMPLETE ∧
    (FailRollout now r).state = RolloutState.FAILED := by
  refine ⟨fun s => rfl, rfl, rfl⟩

/-- C3 counterexample: the claim that `started_at` is written only by the
DRAFT→CANARY transition is false: `UpdateRolloutState` to FULL on a fresh
DRAFT rollout (a non-CANARY target state) writes `started_at`. -/
theorem c3_started_at_written_on_non_canary_counterexample :
    freshRollout.started_at = none ∧
    (UpdateRolloutState 7 RolloutState.FULL freshRollout).started_at = some 7 ∧
    RolloutState.FULL ≠ RolloutState.CANARY := by
  decide

/-- C3 (amended): `started_at` is written by `UpdateRolloutState` whenever
it is still NULL, whatever the new state is (`CASE WHEN started_at IS NULL
THEN NOW() ELSE started_at END`), and a non-null `started_at` is never
overwritten; `CompleteRollout` and `FailRollout` never touch it.  So
`started_at` is assigned at most once, by the first `UpdateRolloutState`
call, not specifically by the DRAFT→CANARY transition. -/
theorem c3_started_at_first_update_wins (now : Nat) (s : RolloutState) (r : Rollout) :
    (UpdateRolloutState now s r).started_at = some (r.started_at.getD now) ∧
    (CompleteRollout now r).started_at = r.started_at ∧
    (FailRollout now r).started_at = r.started_at := by
  refine ⟨?_, rfl, rfl⟩
  obtain ⟨st, sa, ca⟩ := r
  cases sa <;> rfl

/-- C4 counterexample: the claim that `completed_at`, once set, is never
changed by a later `CompleteRollout`/`FailRollout` is false: completing a
rollout at time 1 and then failing it at time 2 overwrites `completed_at`
from `some 1` to `some 2`. -/
theorem c4_completed_at_overwritten_counterexample :
    (CompleteRollout 1 freshRollout).completed_at = some 1 ∧
    (FailRollout 2 (CompleteRollout 1 freshRollout)).completed_at = some 2 ∧
    (1 : Nat) ≠ 2 := by
  decide

/-- C4 (amended): `CompleteRollout` and `FailRollout` overwrite
`completed_at` with the current time on every invocation (`completed_at =
NOW()`, with no NULL guard), so `completed_at` records the most recent
terminal operation, not the first; `UpdateRolloutState` never touches it. -/
theorem c4_completed_at_last_write_wins (now : Nat) (s : RolloutState) (r : Rollout) :
    (CompleteRollout now r).completed_at = some now ∧
    (FailRollout now r).completed_at = some now ∧
    (UpdateRolloutState now s r).completed_at = r.completed_at := by
  refine ⟨rfl, rfl, rfl⟩

/-- C5 counterexample: the claim that `UpdateRolloutDeviceStatus` refuses
to change rows of a terminal rollout is false: in a database whose only
rollout is COMPLETE, the update still rewrites that rollout's HEALTHY row
to ROLLED_BACK — the query's WHERE clause matches only the composite key
and never consults the rollout's state. -/
theorem c5_terminal_rollout_row_changes_counterexample :
    (∀ p ∈ terminalRolloutDB.rollouts, isTerminal p.2.state = true) ∧
    terminalRolloutDB.statusRows.map RolloutDeviceStatusRow.status
      = [DeviceStatus.HEALTHY] ∧
    (UpdateRolloutDeviceStatus 2 "r1" "d1" DeviceStatus.ROLLED_BACK none
        terminalRolloutDB).statusRows.map RolloutDeviceStatusRow.status
      = [DeviceStatus.ROLLED_BACK] := by
  decide

/-- C5 (amended): `UpdateRolloutDeviceStatus` rewrites the row matching
`(rollout_id, device_id)` unconditionally — its WHERE clause imposes no
condition on the owning rollout's state — so even when every rollout with
that id is terminal (COMPLETE/FAILED), the matched row still transitions
to the requested status; the `rollouts` table itself is untouched. -/
theorem c5_update_row_even_when_terminal (now : Nat) (rid did : String)
    (st : DeviceStatus) (hcr : Option String) (db : ControlPlaneDB)
    (row : RolloutDeviceStatusRow)
    (hterm : ∀ p ∈ db.rollouts, p.1 = rid → isTerminal p.2.state = true)
    (hmem : row ∈ db.statusRows) (hr : row.rollout_id = rid)
    (hd : row.device_id = did) :
    (UpdateRolloutDeviceStatus now rid did st hcr db).rollouts = db.rollouts ∧
    { row with status := st, health_check_result := hcr, updated_at := now }
      ∈ (UpdateRolloutDeviceStatus now rid did st hcr db).statusRows := by
  refine ⟨rfl, ?_⟩
  refine List.mem_map.mpr ⟨row, hmem, ?_⟩
  simp [updateDeviceStatusRow, hr, hd]

/-- C5 witness: in the concrete terminal-rollout database the updated row
is present after the update. -/
theorem c5_update_row_even_when_terminal_witness :
    (UpdateRolloutDeviceStatus 2 "r1" "d1" DeviceStatus.ROLLED_BACK none
        terminalRolloutDB).rollouts = terminalRolloutDB.rollouts ∧
    { rollout_id := "r1", device_id := "d1", is_canary := true,
      status := DeviceStatus.ROLLED_BACK, health_check_result := none,
      updated_at := 2 : RolloutDeviceStatusRow }
      ∈ (UpdateRolloutDeviceStatus 2 "r1" "d1" DeviceStatus.ROLLED_BACK none
          terminalRolloutDB).statusRows :=
  c5_update_row_even_when_terminal 2 "r1" "d1" DeviceStatus.ROLLED_BACK none
    terminalRolloutDB
    { rollout_id := "r1", device_id := "d1", is_canary := true,
      status := DeviceStatus.HEALTHY, health_check_result := none, updated_at := 0 }
    (by decide) (by decide) rfl rfl

/-- C2: on a DRAFT rollout, start() returns the typed `UntrustedArtifact`
error and leaves the row in DRAFT whenever the artifact trust check
fails, and it only moves the rollout out of DRAFT (to CANARY) when the
verification succeeds. -/
theorem c2_start_verifies_or_stays_draft (now : Nat) (trustedKeys : List String)
    (a : Artifact) (r : Rollout) (hdraft : r.state = RolloutState.DRAFT) :
    (verifyArtifactTrust trustedKeys a = false →
      startRollout now trustedKeys a r = (r, some StartRolloutError.UntrustedArtifact) ∧
      (startRollout now trustedKeys a r).1.state = RolloutState.DRAFT) ∧
    ((startRollout now trustedKeys a r).2 = none →
      verifyArtifactTrust trustedKeys a = true ∧
      (startRollout now trustedKeys a r).1.state = RolloutState.CANARY) := by
  constructor
  · intro hv
    constructor
    · simp [startRollout, hdraft, hv]
    · simp [startRollout, hdraft, hv]
  · intro hok
    by_cases hv : verifyArtifactTrust trustedKeys a
    · refine ⟨hv, ?_⟩
      simp [startRollout, hdraft, hv, UpdateRolloutState]
    · exfalso
      simp [startRollout, hdraft, hv] at hok

/-- C2 witness: a malformed artifact is rejected with `UntrustedArtifact`
and the fresh DRAFT rollout stays DRAFT; a well-formed artifact signed by
the trusted key moves it to CANARY. -/
theorem c2_start_witness :
    (startRollout 3 ["k1"] badArtifact freshRollout
        = (freshRollout, some StartRolloutError.UntrustedArtifact) ∧
      (startRollout 3 ["k1"] badArtifact freshRollout).1.state = RolloutState.DRAFT) ∧
    (verifyArtifactTrust ["k1"] goodArtifact = true ∧
      (startRollout 3 ["k1"] goodArtifact freshRollout).1.state = RolloutState.CANARY) :=
  ⟨(c2_start_verifies_or_stays_draft 3 ["k1"] badArtifact freshRollout rfl).1 (by decide),
   (c2_start_verifies_or_stays_draft 3 ["k1"] goodArtifact freshRollout rfl).2 (by decide)⟩

/-- C6: a send to a device id with no entry in the stream map returns the
typed not-connected error and forwards nothing; a send to a registered id
forwards the command on that device's stream. -/
theorem c6_send_not_connected_or_forwards (m : StreamMap) (d : String)
    (u : UpdateNotification) (rb : RollbackRequest) :
    (m d = none →
      SendUpdateNotification m d u = Except.error (SendError.notConnected d) ∧
      SendRollbackRequest m d rb = Except.error (SendError.notConnected d)) ∧
    (∀ s : Nat, m d = some s →
      SendUpdateNotification m d u = Except.ok (s, ControlPayload.update u) ∧
      SendRollbackRequest m d rb = Except.ok (s, ControlPayload.rollback rb)) := by
  constructor
  · intro h
    constructor
    · simp [SendUpdateNotification, h]
    · simp [SendRollbackRequest, h]
  · intro s h
    constructor
    · simp [SendUpdateNotification, h]
    · simp [SendRollbackRequest, h]

/-- C6 witness: with an empty stream map both sends to `"d1"` fail typed;
after registering stream 7 for `"d1"`, both sends forward on stream 7. -/
theorem c6_send_witness :
    (SendUpdateNotification emptyStreams "d1" sampleUpdate
        = Except.error (SendError.notConnected "d1") ∧
      SendRollbackRequest emptyStreams "d1" sampleRollback
        = Except.error (SendError.notConnected "d1")) ∧
    (SendUpdateNotification (addStream emptyStreams "d1" 7) "d1" sampleUpdate
        = Except.ok (7, ControlPayload.update sampleUpdate) ∧
      SendRollbackRequest (addStream emptyStreams "d1" 7) "d1" sampleRollback
        = Except.ok (7, ControlPayload.rollback sampleRollback)) :=
  ⟨(c6_send_not_connected_or_forwards emptyStreams "d1" sampleUpdate sampleRollback).1 rfl,
   (c6_send_not_connected_or_forwards (addStream emptyStreams "d1" 7) "d1"
      sampleUpdate sampleRollback).2 7 (by decide)⟩

/-- C7: for a heartbeat whose device id parses, the handler sends exactly
one `HeartbeatAck` echoing the request's timestamp, returns the stream
send's result regardless of whether the repository write succeeded, and
records the device's last-seen row exactly when the write succeeds. -/
theorem c7_heartbeat_ack_and_best_effort_write (parseUUID : String → Option String)
    (repoOk : Bool) (sendErr : Option GrpcCode) (hb : HeartbeatRequest)
    (u : String) (hparse : parseUUID hb.device_id = some u) :
    (handleHeartbeat parseUUID repoOk sendErr hb).sent
      = [ControlPayload.heartbeatAck hb.timestamp] ∧
    (handleHeartbeat parseUUID repoOk sendErr hb).err = sendErr ∧
    (handleHeartbeat parseUUID true sendErr hb).wroteHeartbeat = some u ∧
    (handleHeartbeat parseUUID false sendErr hb).wroteHeartbeat = none := by
  refine ⟨?_, ?_, ?_, ?_⟩ <;> simp [handleHeartbeat, hparse]

/-- C7 witness: concrete heartbeat with a failing repository write — the
ack carrying timestamp 42 is still sent and the handler returns the send
result (success). -/
theorem c7_heartbeat_witness :
    (handleHeartbeat (fun s => some s) false none
        { device_id := "d1", timestamp := 42, agent_version := "v1" }).sent
      = [ControlPayload.heartbeatAck 42] ∧
    (handleHeartbeat (fun s => some s) false none
        { device_id := "d1", timestamp := 42, agent_version := "v1" }).err = none ∧
    (handleHeartbeat (fun s => some s) true none
        { device_id := "d1", timestamp := 42, agent_version := "v1" }).wroteHeartbeat
      = some "d1" ∧
    (handleHeartbeat (fun s => some s) false none
        { device_id := "d1", timestamp := 42, agent_version := "v1" }).wroteHeartbeat
      = none :=
  c7_heartbeat_ack_and_best_effort_write (fun s => some s) false none
    { device_id := "d1", timestamp := 42, agent_version := "v1" } "d1" rfl

/-- C8: applying a HEALTHY health report to a row that is already HEALTHY
leaves the row unchanged — duplicate HEALTHY reports are a no-op. -/
theorem c8_duplicate_healthy_report_noop (now : Nat) (rep : HealthReport)
    (row : RolloutDeviceStatusRow) (hhealthy : rep.healthy = true)
    (hrow : row.status = DeviceStatus.HEALTHY) :
    applyHealthReport now rep row = row := by
  simp [applyHealthReport, hhealthy, hrow]

/-- C8 witness: a second HEALTHY report for the already-HEALTHY row of
`("r1","d1")` leaves the row exactly as it was. -/
theorem c8_duplicate_healthy_report_noop_witness :
    applyHealthReport 9
      { device_id := "d1", rollout_id := "r1", healthy := true, detail := none }
      { rollout_id := "r1", device_id := "d1", is_canary := true,
        status := DeviceStatus.HEALTHY, health_check_result := none, updated_at := 3 }
      = { rollout_id := "r1", device_id := "d1", is_canary := true,
          status := DeviceStatus.HEALTHY, health_check_result := none, updated_at := 3 } :=
  c8_duplicate_healthy_report_noop 9
    { device_id := "d1", rollout_id := "r1", healthy := true, detail := none }
    { rollout_id := "r1", device_id := "d1", is_canary := true,
      status := DeviceStatus.HEALTHY, health_check_result := none, updated_at := 3 }
    rfl rfl

/-- C9: `VerifyBLAKE3` round-trips — the recomputed hash of `d` verifies
against itself; any stored hash different from the recomputed one fails,
and in particular mutating one character of the stored hash to a
different character fails verification. -/
theorem c9_verify_blake3_roundtrip (sum256 : List Nat → List Nat) (d : List Nat) :
    VerifyBLAKE3 sum256 d (BLAKE3Hash sum256 d) = true ∧
    (∀ h : String, h ≠ BLAKE3Hash sum256 d → VerifyBLAKE3 sum256 d h = false) ∧
    (∀ i : Nat, ∀ c : Char, ∀ hi : i < (BLAKE3Hash sum256 d).toList.length,
      c ≠ (BLAKE3Hash sum256 d).toList.get ⟨i, hi⟩ →
      VerifyBLAKE3 sum256 d (mutateChar (BLAKE3Hash sum256 d) i c) = false) := by
  have key : ∀ h : String, h ≠ BLAKE3Hash sum256 d → VerifyBLAKE3 sum256 d h = false := by
    intro h hne
    show (BLAKE3Hash sum256 d == h) = false
    exact beq_eq_false_iff_ne.mpr (Ne.symm hne)
  refine ⟨?_, key, ?_⟩
  · show (BLAKE3Hash sum256 d == BLAKE3Hash sum256 d) = true
    exact beq_self_eq_true _
  · intro i c hi hc
    exact key _ (mutateChar_ne _ _ _ hi hc)

/-- C9 witness: with a constant 32-zero-byte digest function, the
recomputed hash of `[1,2,3]` verifies; the unrelated string `"deadbeef"`
fails; and flipping the first character of the stored hash to `'f'`
fails. -/
theorem c9_verify_blake3_roundtrip_witness :
    VerifyBLAKE3 (fun _ => List.replicate 32 0) [1, 2, 3]
        (BLAKE3Hash (fun _ => List.replicate 32 0) [1, 2, 3]) = true ∧
    VerifyBLAKE3 (fun _ => List.replicate 32 0) [1, 2, 3] "deadbeef" = false ∧
    VerifyBLAKE3 (fun _ => List.replicate 32 0) [1, 2, 3]
        (mutateChar (BLAKE3Hash (fun _ => List.replicate 32 0) [1, 2, 3]) 0 'f')
      = false :=
  ⟨(c9_verify_blake3_roundtrip (fun _ => List.replicate 32 0) [1, 2, 3]).1,
   (c9_verify_blake3_roundtrip (fun _ => List.replicate 32 0) [1, 2, 3]).2.1
     "deadbeef" (by decide),
   (c9_verify_blake3_roundtrip (fun _ => List.replicate 32 0) [1, 2, 3]).2.2
     0 'f' (by decide) (by decide)⟩

/-- C10: whatever ends the receive loop — context cancellation, clean EOF
or a receive error — `DeviceStream` removes the stream-map entry for the
device id it last recorded, unconditionally: even a map in which a newer
replacement stream is registered under that id loses the entry, so
subsequent sends to that id return not-connected until a new heartbeat
re-registers a stream. -/
theorem c10_stream_exit_unregisters_unconditionally (cause : StreamTermination)
    (d : String) (m : StreamMap) (s2 s3 : Nat) (u : UpdateNotification)
    (rb : RollbackRequest) :
    deviceStreamExit cause d m d = none ∧
    deviceStreamExit cause d (addStream m d s2) d = none ∧
    SendUpdateNotification (deviceStreamExit cause d m) d u
      = Except.error (SendError.notConnected d) ∧
    SendRollbackRequest (deviceStreamExit cause d m) d rb
      = Except.error (SendError.notConnected d) ∧
    SendUpdateNotification (addStream (deviceStreamExit cause d m) d s3) d u
      = Except.ok (s3, ControlPayload.update u) := by
  refine ⟨?_, ?_, ?_, ?_, ?_⟩
  · simp [deviceStreamExit, removeStream]
  · simp [deviceStreamExit, removeStream]
  · simp [SendUpdateNotification, deviceStreamExit, removeStream]
  · simp [SendRollbackRequest, deviceStreamExit, removeStream]
  · simp [SendUpdateNotification, addStream]

end SafeEdge
